import Mathlib

/-!
Verification of `ecef_to_sez.py`: a program converting a target point given in
Earth-Centered-Earth-Fixed (ECEF) Cartesian coordinates into the local
South-East-Zenith (SEZ) frame of an observer, also given in ECEF.

The Python floats are modelled as real numbers; `math.atan2 y x` is modelled
as `Complex.arg ⟨x, y⟩`, which has exactly the atan2 branch-cut and
`atan2 0 0 = 0` convention.
-/

namespace EcefSez

/-- Model of `math.atan2 y x` over the reals: the argument of the complex
number `x + y·i`, in `(-π, π]`, with `atan2 0 0 = 0`. -/
noncomputable def atan2 (y x : ℝ) : ℝ := Complex.arg ⟨x, y⟩

/-- Model of `math.degrees`: radians to degrees. -/
noncomputable def degrees (x : ℝ) : ℝ := x * 180 / Real.pi

/-- Model of `math.radians`: degrees to radians. -/
noncomputable def radians (x : ℝ) : ℝ := x * Real.pi / 180

/-- Embedding of `ecef_to_lat_lon` (src/ecef_to_sez.py lines 26-51):
longitude from `atan2(o_y, o_x)`, latitude from `atan2(o_z, hyp)` with
`hyp = sqrt(o_x² + o_y²)`, both converted to degrees; returns
`(lat_deg, lon_deg)`. -/
noncomputable def ecef_to_lat_lon (o_x_km o_y_km o_z_km : ℝ) : ℝ × ℝ :=
  let lon_rad := atan2 o_y_km o_x_km
  let hyp := Real.sqrt (o_x_km ^ 2 + o_y_km ^ 2)
  let lat_rad := atan2 o_z_km hyp
  let lat_deg := degrees lat_rad
  let lon_deg := degrees lon_rad
  (lat_deg, lon_deg)

/-- Embedding of `ecef_to_sez` (src/ecef_to_sez.py lines 54-92): recompute the
observer's latitude/longitude in degrees, convert back to radians, take the
componentwise delta, and apply the ECEF→SEZ rotation. Returns `(s, e, z)`. -/
noncomputable def ecef_to_sez (o_x_km o_y_km o_z_km x_km y_km z_km : ℝ) :
    ℝ × ℝ × ℝ :=
  let ll := ecef_to_lat_lon o_x_km o_y_km o_z_km
  let lat_rad := radians ll.1
  let lon_rad := radians ll.2
  let dx := x_km - o_x_km
  let dy := y_km - o_y_km
  let dz := z_km - o_z_km
  let sin_lat := Real.sin lat_rad
  let cos_lat := Real.cos lat_rad
  let sin_lon := Real.sin lon_rad
  let cos_lon := Real.cos lon_rad
  let s_km := -sin_lat * cos_lon * dx - sin_lat * sin_lon * dy + cos_lat * dz
  let e_km := -sin_lon * dx + cos_lon * dy
  let zz_km := cos_lat * cos_lon * dx + cos_lat * sin_lon * dy + sin_lat * dz
  (s_km, e_km, zz_km)

/-- The fused variant described by the spec's design note: derive the observer
angles directly in radians (no degrees round trip), keeping the
`atan2(0,0) = 0` convention, then apply the same rotation to the delta. -/
noncomputable def ecef_to_sez_fused (o_x_km o_y_km o_z_km x_km y_km z_km : ℝ) :
    ℝ × ℝ × ℝ :=
  let lon_rad := atan2 o_y_km o_x_km
  let lat_rad := atan2 o_z_km (Real.sqrt (o_x_km ^ 2 + o_y_km ^ 2))
  let dx := x_km - o_x_km
  let dy := y_km - o_y_km
  let dz := z_km - o_z_km
  let sin_lat := Real.sin lat_rad
  let cos_lat := Real.cos lat_rad
  let sin_lon := Real.sin lon_rad
  let cos_lon := Real.cos lon_rad
  (-sin_lat * cos_lon * dx - sin_lat * sin_lon * dy + cos_lat * dz,
   -sin_lon * dx + cos_lon * dy,
   cos_lat * cos_lon * dx + cos_lat * sin_lon * dy + sin_lat * dz)

/-- Result of one run of the program's `main`: usage error (arity ≠ 6),
an uncaught float-conversion failure, or success carrying the SEZ triple. -/
inductive MainResult
  | usageError : MainResult
  | parseError : MainResult
  | success : ℝ → ℝ → ℝ → MainResult

/-- The usage string printed by `main` on wrong argument count
(src/ecef_to_sez.py line 98). -/
def usageMsg : String :=
  "Usage: python3 ecef_to_sez.py o_x_km o_y_km o_z_km x_km y_km z_km"

/-- Embedding of `main` (src/ecef_to_sez.py lines 95-115). `argv` is the full
argument vector including the script name at index 0, so six positional
arguments mean `argv.length = 7`. `pyfloat` abstracts Python's `float(·)`
string conversion: `none` models a raised `ValueError`. If the arity check
fails, `usageError` is returned before any conversion is attempted; if every
conversion succeeds, the transform runs and its triple is the output. -/
noncomputable def main (pyfloat : String → Option ℝ) (argv : List String) :
    MainResult :=
  if argv.length ≠ 7 then MainResult.usageError
  else
    match pyfloat (argv.get! 1), pyfloat (argv.get! 2), pyfloat (argv.get! 3),
          pyfloat (argv.get! 4), pyfloat (argv.get! 5), pyfloat (argv.get! 6) with
    | some a, some b, some c, some d, some e, some f =>
        let r := ecef_to_sez a b c d e f
        MainResult.success r.1 r.2.1 r.2.2
    | _, _, _, _, _, _ => MainResult.parseError

/-- Process exit status of each outcome: explicit `sys.exit(1)` on usage
error, status 1 for an uncaught Python exception, 0 on success. -/
def exitCode : MainResult → ℕ
  | MainResult.usageError => 1
  | MainResult.parseError => 1
  | MainResult.success _ _ _ => 0

/-- Lines printed to standard output by each outcome: the usage string on a
usage error; nothing on a parse error (the traceback goes to stderr); on
success the three SEZ components in order south, east, zenith, one per line,
unlabelled. A line is either literal text or a printed number. -/
def stdout : MainResult → List (String ⊕ ℝ)
  | MainResult.usageError => [Sum.inl usageMsg]
  | MainResult.parseError => []
  | MainResult.success s e z => [Sum.inr s, Sum.inr e, Sum.inr z]

/-- A concrete stand-in for Python `float` conversion used by witnesses:
reads the three numerals of the equatorial test case. -/
noncomputable def testParse : String → Option ℝ :=
  fun s => if s = "6378" then some 6378 else if s = "1" then some 1 else some 0

/-! Basic facts about the `atan2` model. -/

lemma atan2_zero_zero : atan2 0 0 = 0 := by
  have h : (⟨0, 0⟩ : ℂ) = 0 := Complex.ext rfl rfl
  simp [atan2, h]

lemma sin_atan2 (y x : ℝ) :
    Real.sin (atan2 y x) = y / Real.sqrt (x ^ 2 + y ^ 2) := by
  have h := Complex.sin_arg (⟨x, y⟩ : ℂ)
  rw [atan2, h, Complex.abs_apply, Complex.normSq_mk]
  ring_nf

lemma cos_atan2 (y x : ℝ) (h : ¬(x = 0 ∧ y = 0)) :
    Real.cos (atan2 y x) = x / Real.sqrt (x ^ 2 + y ^ 2) := by
  have hz : (⟨x, y⟩ : ℂ) ≠ 0 := by
    intro hc
    exact h ⟨congrArg Complex.re hc, congrArg Complex.im hc⟩
  have hc := Complex.cos_arg hz
  rw [atan2, hc, Complex.abs_apply, Complex.normSq_mk]
  ring_nf

lemma atan2_zero_of_nonneg (x : ℝ) (hx : 0 ≤ x) : atan2 0 x = 0 := by
  have h : (⟨x, 0⟩ : ℂ) = (x : ℂ) := Complex.ext rfl rfl
  rw [atan2, h, Complex.arg_ofReal_of_nonneg hx]

/-- Degrees→radians round trip is the identity over the reals. -/
lemma radians_degrees (x : ℝ) : radians (degrees x) = x := by
  unfold radians degrees
  field_simp

/-- Unfolding of `ecef_to_sez` to a closed formula in the observer's
geocentric latitude `φ = atan2 oz (sqrt (ox² + oy²))` and longitude
`λ = atan2 oy ox` (in radians; the degrees round trip cancels). -/
lemma sez_unfold (ox oy oz x y z : ℝ) :
    ecef_to_sez ox oy oz x y z =
      (-Real.sin (atan2 oz (Real.sqrt (ox ^ 2 + oy ^ 2))) * Real.cos (atan2 oy ox) * (x - ox)
         - Real.sin (atan2 oz (Real.sqrt (ox ^ 2 + oy ^ 2))) * Real.sin (atan2 oy ox) * (y - oy)
         + Real.cos (atan2 oz (Real.sqrt (ox ^ 2 + oy ^ 2))) * (z - oz),
       -Real.sin (atan2 oy ox) * (x - ox) + Real.cos (atan2 oy ox) * (y - oy),
       Real.cos (atan2 oz (Real.sqrt (ox ^ 2 + oy ^ 2))) * Real.cos (atan2 oy ox) * (x - ox)
         + Real.cos (atan2 oz (Real.sqrt (ox ^ 2 + oy ^ 2))) * Real.sin (atan2 oy ox) * (y - oy)
         + Real.sin (atan2 oz (Real.sqrt (ox ^ 2 + oy ^ 2))) * (z - oz)) := by
  unfold ecef_to_sez ecef_to_lat_lon
  simp only [radians_degrees]

/-- Orthogonality of the rotation coefficients, as a polynomial identity:
if `a² + b² = 1` and `c² + d² = 1` then the three rotated components have the
same sum of squares as the delta. -/
lemma rot_norm (a b c d dx dy dz : ℝ) (h1 : a ^ 2 + b ^ 2 = 1)
    (h2 : c ^ 2 + d ^ 2 = 1) :
    (-a * d * dx - a * c * dy + b * dz) ^ 2 + (-c * dx + d * dy) ^ 2 +
        (b * d * dx + b * c * dy + a * dz) ^ 2 =
      dx ^ 2 + dy ^ 2 + dz ^ 2 := by
  linear_combination
    (d ^ 2 * dx ^ 2 + c ^ 2 * dy ^ 2 + dz ^ 2 + 2 * c * d * dx * dy) * h1 +
      (dx ^ 2 + dy ^ 2) * h2

/-- On the equatorial example the transform yields exactly `(1, 0, 0)`:
the observer angles are both zero, so the rotation is trivial there. -/
lemma sez_equatorial : ecef_to_sez 6378 0 0 6378 0 1 = (1, 0, 0) := by
  rw [sez_unfold]
  have h1 : atan2 (0:ℝ) (Real.sqrt ((6378:ℝ) ^ 2 + (0:ℝ) ^ 2)) = 0 :=
    atan2_zero_of_nonneg _ (Real.sqrt_nonneg _)
  have h2 : atan2 (0:ℝ) 6378 = 0 := atan2_zero_of_nonneg _ (by norm_num)
  rw [h1, h2]
  norm_num

lemma testParse_6378 : testParse "6378" = some 6378 := by
  unfold testParse
  rw [if_pos rfl]

lemma testParse_0 : testParse "0" = some 0 := by
  unfold testParse
  rw [if_neg (by decide), if_neg (by decide)]

lemma testParse_1 : testParse "1" = some 1 := by
  unfold testParse
  rw [if_neg (by decide), if_pos rfl]

/-- C2: `ecef_to_lat_lon` returns latitude `atan2(oz, sqrt(ox²+oy²))` and
longitude `atan2(oy, ox)`, both converted to degrees, as a total function;
and whenever `ox = 0` and `oy = 0` the returned longitude is `0` degrees
(the `atan2(0,0) = 0` convention). -/
theorem ecef_to_lat_lon_formula :
    (∀ ox oy oz : ℝ,
        ecef_to_lat_lon ox oy oz =
          (degrees (atan2 oz (Real.sqrt (ox ^ 2 + oy ^ 2))),
            degrees (atan2 oy ox))) ∧
      ∀ oz : ℝ, (ecef_to_lat_lon 0 0 oz).2 = 0 := by
  constructor
  · intro ox oy oz
    rfl
  · intro oz
    show degrees (atan2 0 0) = 0
    rw [atan2_zero_zero]
    simp [degrees]

/-- C1: `ecef_to_sez` returns exactly the spec's rotation applied to the
componentwise delta `(x-ox, y-oy, z-oz)`, where `φ = atan2 oz (sqrt (ox²+oy²))`
and `λ = atan2 oy ox` are the observer's geocentric latitude and longitude
per §4.1 (the degrees→radians round trip is the identity over ℝ). -/
theorem ecef_to_sez_rotation_formula (ox oy oz x y z : ℝ) :
    ecef_to_sez ox oy oz x y z =
      (-Real.sin (atan2 oz (Real.sqrt (ox ^ 2 + oy ^ 2))) * Real.cos (atan2 oy ox) * (x - ox)
         - Real.sin (atan2 oz (Real.sqrt (ox ^ 2 + oy ^ 2))) * Real.sin (atan2 oy ox) * (y - oy)
         + Real.cos (atan2 oz (Real.sqrt (ox ^ 2 + oy ^ 2))) * (z - oz),
       -Real.sin (atan2 oy ox) * (x - ox) + Real.cos (atan2 oy ox) * (y - oy),
       Real.cos (atan2 oz (Real.sqrt (ox ^ 2 + oy ^ 2))) * Real.cos (atan2 oy ox) * (x - ox)
         + Real.cos (atan2 oz (Real.sqrt (ox ^ 2 + oy ^ 2))) * Real.sin (atan2 oy ox) * (y - oy)
         + Real.sin (atan2 oz (Real.sqrt (ox ^ 2 + oy ^ 2))) * (z - oz)) :=
  sez_unfold ox oy oz x y z

/-- C3: the transform of an observer against itself is the zero SEZ triple. -/
theorem ecef_to_sez_self (ox oy oz : ℝ) :
    ecef_to_sez ox oy oz ox oy oz = (0, 0, 0) := by
  rw [sez_unfold]
  simp

/-- C10: the east component depends only on the observer's `x`,`y` and the
`x`,`y` deltas: two inputs with the same `ox`, `oy`, `x`, `y` but arbitrary
`oz`/`z` coordinates produce the same east component. -/
theorem east_ignores_z (ox oy oz₁ oz₂ x y z₁ z₂ : ℝ) :
    (ecef_to_sez ox oy oz₁ x y z₁).2.1 = (ecef_to_sez ox oy oz₂ x y z₂).2.1 := by
  rw [sez_unfold, sez_unfold]

/-- C9: the sum of squares of the three SEZ components equals the squared
Euclidean norm of the ECEF delta: the rotation is orthogonal. -/
theorem sez_preserves_norm (ox oy oz x y z : ℝ) :
    (ecef_to_sez ox oy oz x y z).1 ^ 2 + (ecef_to_sez ox oy oz x y z).2.1 ^ 2 +
        (ecef_to_sez ox oy oz x y z).2.2 ^ 2 =
      (x - ox) ^ 2 + (y - oy) ^ 2 + (z - oz) ^ 2 := by
  rw [sez_unfold]
  exact rot_norm _ _ _ _ _ _ _
    (Real.sin_sq_add_cos_sq (atan2 oz (Real.sqrt (ox ^ 2 + oy ^ 2))))
    (Real.sin_sq_add_cos_sq (atan2 oy ox))

/-- C8: the fused variant that derives the observer angles directly in
radians returns the same SEZ triple as `ecef_to_sez` on every input. -/
theorem fused_eq_ecef_to_sez (ox oy oz x y z : ℝ) :
    ecef_to_sez_fused ox oy oz x y z = ecef_to_sez ox oy oz x y z := by
  rw [sez_unfold]
  rfl

/-- C5: for a nonzero observer `O` and positive `t`, the target
`O + t · (O/‖O‖)` (displaced radially outward through the observer) maps to
the SEZ triple `(0, 0, t)`: zenith equals the displacement magnitude and the
south and east components vanish. -/
theorem zenith_alignment (ox oy oz t : ℝ)
    (hO : ox ≠ 0 ∨ oy ≠ 0 ∨ oz ≠ 0) (ht : 0 < t) :
    ecef_to_sez ox oy oz
        (ox + t * (ox / Real.sqrt (ox ^ 2 + oy ^ 2 + oz ^ 2)))
        (oy + t * (oy / Real.sqrt (ox ^ 2 + oy ^ 2 + oz ^ 2)))
        (oz + t * (oz / Real.sqrt (ox ^ 2 + oy ^ 2 + oz ^ 2))) = (0, 0, t) := by
  have hsum : 0 < ox ^ 2 + oy ^ 2 + oz ^ 2 := by
    rcases hO with h | h | h
    · nlinarith [sq_pos_of_ne_zero h, sq_nonneg oy, sq_nonneg oz]
    · nlinarith [sq_pos_of_ne_zero h, sq_nonneg ox, sq_nonneg oz]
    · nlinarith [sq_pos_of_ne_zero h, sq_nonneg ox, sq_nonneg oy]
  rw [sez_unfold]
  generalize hrg : Real.sqrt (ox ^ 2 + oy ^ 2 + oz ^ 2) = r
  generalize hhg : Real.sqrt (ox ^ 2 + oy ^ 2) = h
  have hr : 0 < r := hrg ▸ Real.sqrt_pos.mpr hsum
  have hr2 : r ^ 2 = ox ^ 2 + oy ^ 2 + oz ^ 2 := by
    rw [← hrg]; exact Real.sq_sqrt hsum.le
  have hh2 : h ^ 2 = ox ^ 2 + oy ^ 2 := by
    rw [← hhg]; exact Real.sq_sqrt (by positivity)
  have hh0le : 0 ≤ h := by rw [← hhg]; exact Real.sqrt_nonneg _
  have hhr : Real.sqrt (h ^ 2 + oz ^ 2) = r := by rw [hh2, hrg]
  have hsinp : Real.sin (atan2 oz h) = oz / r := by rw [sin_atan2, hhr]
  have hcosp : Real.cos (atan2 oz h) = h / r := by
    rw [cos_atan2, hhr]
    rintro ⟨hh0, hoz0⟩
    rw [hh0] at hh2
    nlinarith
  by_cases hxy : ox = 0 ∧ oy = 0
  · obtain ⟨hx0, hy0⟩ := hxy
    have hh0 : h = 0 := by rw [← hhg, hx0, hy0]; simp
    have hlon : atan2 oy ox = 0 := by rw [hx0, hy0]; exact atan2_zero_zero
    rw [hlon, hsinp, hcosp, hh0, hx0, hy0]
    simp only [Real.sin_zero, Real.cos_zero, Prod.mk.injEq]
    refine ⟨by ring, by ring, ?_⟩
    have hr2z : r ^ 2 = oz ^ 2 := by rw [hr2, hx0, hy0]; ring
    field_simp
    linear_combination (-t) * hr2z
  · have hxypos : 0 < ox ^ 2 + oy ^ 2 := by
      rcases not_and_or.mp hxy with h | h
      · nlinarith [sq_pos_of_ne_zero h, sq_nonneg oy]
      · nlinarith [sq_pos_of_ne_zero h, sq_nonneg ox]
    have hh : 0 < h := lt_of_le_of_ne hh0le (by
      intro hc
      rw [← hc] at hh2
      nlinarith)
    have hsinl : Real.sin (atan2 oy ox) = oy / h := by rw [sin_atan2, hhg]
    have hcosl : Real.cos (atan2 oy ox) = ox / h := by
      rw [cos_atan2 _ _ hxy, hhg]
    rw [hsinp, hcosp, hsinl, hcosl]
    simp only [Prod.mk.injEq]
    refine ⟨?_, ?_, ?_⟩
    · field_simp
      linear_combination (t * oz * r ^ 4 * h) * hh2
    · field_simp
      ring
    · field_simp
      linear_combination (-(t * h * r ^ 2)) * hr2

/-- Witness for C5 at the concrete observer `(3, 4, 0)` with `t = 5`. -/
theorem zenith_alignment_witness :
    (((3:ℝ) ≠ 0 ∨ (4:ℝ) ≠ 0 ∨ (0:ℝ) ≠ 0) ∧ (0:ℝ) < 5) ∧
      ecef_to_sez 3 4 0
          (3 + 5 * (3 / Real.sqrt (3 ^ 2 + 4 ^ 2 + 0 ^ 2)))
          (4 + 5 * (4 / Real.sqrt (3 ^ 2 + 4 ^ 2 + 0 ^ 2)))
          (0 + 5 * (0 / Real.sqrt (3 ^ 2 + 4 ^ 2 + 0 ^ 2))) = (0, 0, 5) :=
  ⟨⟨Or.inl (by norm_num), by norm_num⟩,
    zenith_alignment 3 4 0 5 (Or.inl (by norm_num)) (by norm_num)⟩

/-- C6: with any argument count other than 6 positional arguments, `main`
returns the usage error outcome for every possible float parser (so no
argument is ever converted and no transform runs), prints exactly the usage
string to standard output, and exits with code 1. -/
theorem main_usage_error (pyfloat : String → Option ℝ) (prog : String)
    (args : List String) (hlen : args.length ≠ 6) :
    main pyfloat (prog :: args) = MainResult.usageError ∧
      exitCode (main pyfloat (prog :: args)) = 1 ∧
      stdout (main pyfloat (prog :: args)) = [Sum.inl usageMsg] := by
  have hm : main pyfloat (prog :: args) = MainResult.usageError := by
    unfold main
    rw [if_pos]
    simp only [List.length_cons]
    omega
  exact ⟨hm, by rw [hm]; rfl, by rw [hm]; rfl⟩

/-- Witness for C6 with zero positional arguments. -/
theorem main_usage_error_witness :
    ([] : List String).length ≠ 6 ∧
      (main (fun _ => none) ["prog"] = MainResult.usageError ∧
        exitCode (main (fun _ => none) ["prog"]) = 1 ∧
        stdout (main (fun _ => none) ["prog"]) = [Sum.inl usageMsg]) :=
  ⟨by decide, main_usage_error (fun _ => none) "prog" [] (by decide)⟩

/-- C7: with exactly 6 positional arguments of which at least one fails float
conversion, `main` ends in the parse-error outcome: nonzero exit status, no
transform output, and nothing printed to standard output (no custom
message). -/
theorem main_parse_error (pyfloat : String → Option ℝ)
    (p a1 a2 a3 a4 a5 a6 : String)
    (hbad : pyfloat a1 = none ∨ pyfloat a2 = none ∨ pyfloat a3 = none ∨
      pyfloat a4 = none ∨ pyfloat a5 = none ∨ pyfloat a6 = none) :
    main pyfloat [p, a1, a2, a3, a4, a5, a6] = MainResult.parseError ∧
      exitCode (main pyfloat [p, a1, a2, a3, a4, a5, a6]) ≠ 0 ∧
      stdout (main pyfloat [p, a1, a2, a3, a4, a5, a6]) = [] := by
  have hm : main pyfloat [p, a1, a2, a3, a4, a5, a6] = MainResult.parseError := by
    unfold main
    rw [if_neg (by simp)]
    simp only [List.get!]
    cases h1 : pyfloat a1 <;> cases h2 : pyfloat a2 <;> cases h3 : pyfloat a3 <;>
      cases h4 : pyfloat a4 <;> cases h5 : pyfloat a5 <;> cases h6 : pyfloat a6 <;>
      simp_all
  exact ⟨hm, by rw [hm]; simp [exitCode], by rw [hm]; rfl⟩

/-- Witness for C7: a parser rejecting everything, first argument "abc". -/
theorem main_parse_error_witness :
    ((fun _ : String => (none : Option ℝ)) "abc" = none ∨
        (fun _ : String => (none : Option ℝ)) "0" = none ∨
        (fun _ : String => (none : Option ℝ)) "0" = none ∨
        (fun _ : String => (none : Option ℝ)) "0" = none ∨
        (fun _ : String => (none : Option ℝ)) "0" = none ∨
        (fun _ : String => (none : Option ℝ)) "0" = none) ∧
      (main (fun _ => none) ["prog", "abc", "0", "0", "0", "0", "0"] =
          MainResult.parseError ∧
        exitCode (main (fun _ => none) ["prog", "abc", "0", "0", "0", "0", "0"]) ≠ 0 ∧
        stdout (main (fun _ => none) ["prog", "abc", "0", "0", "0", "0", "0"]) = []) :=
  ⟨Or.inl rfl,
    main_parse_error (fun _ => none) "prog" "abc" "0" "0" "0" "0" "0" (Or.inl rfl)⟩

/-- C4: on observer `(6378, 0, 0)` and target `(6378, 0, 1)`, for any float
parser that reads the three numerals correctly, `main` succeeds with exit
code 0 and prints exactly three lines — south, east, zenith in that order,
no labels — with values `1`, `0`, `0`. -/
theorem main_equatorial (pyfloat : String → Option ℝ)
    (hp6378 : pyfloat "6378" = some 6378) (hp0 : pyfloat "0" = some 0)
    (hp1 : pyfloat "1" = some 1) :
    main pyfloat ["prog", "6378", "0", "0", "6378", "0", "1"] =
        MainResult.success 1 0 0 ∧
      exitCode (main pyfloat ["prog", "6378", "0", "0", "6378", "0", "1"]) = 0 ∧
      stdout (main pyfloat ["prog", "6378", "0", "0", "6378", "0", "1"]) =
        [Sum.inr 1, Sum.inr 0, Sum.inr 0] := by
  have hm : main pyfloat ["prog", "6378", "0", "0", "6378", "0", "1"] =
      MainResult.success 1 0 0 := by
    unfold main
    rw [if_neg (by simp)]
    simp only [List.get!]
    rw [hp6378, hp0, hp1]
    simp only [sez_equatorial]
  exact ⟨hm, by rw [hm]; rfl, by rw [hm]; rfl⟩

/-- Witness for C4 with a concrete parser mapping the three numerals to
their values. -/
theorem main_equatorial_witness :
    (testParse "6378" = some 6378 ∧ testParse "0" = some 0 ∧
        testParse "1" = some 1) ∧
      (main testParse ["prog", "6378", "0", "0", "6378", "0", "1"] =
          MainResult.success 1 0 0 ∧
        exitCode (main testParse ["prog", "6378", "0", "0", "6378", "0", "1"]) = 0 ∧
        stdout (main testParse ["prog", "6378", "0", "0", "6378", "0", "1"]) =
          [Sum.inr 1, Sum.inr 0, Sum.inr 0]) :=
  ⟨⟨testParse_6378, testParse_0, testParse_1⟩,
    main_equatorial testParse testParse_6378 testParse_0 testParse_1⟩

end EcefSez
